import Mathlib

/-!
Shallow embedding of `internal/pkg/consensus/processor.go` from
kstola-bloxroute/go-filecoin: the state-transition processor (message
application engine, address resolver, query executor, tip-set
orchestrator, error classifier).

Collaborator packages (vm, state, address, block, errors) are not part of
the source under verification; where a claim depends on their behavior,
the corresponding definition is modelled from the spec and marked
`Modelled from the spec:` in its doc comment.  Everything else is a
direct translation of `processor.go`.
-/

/-- Address protocols, mirroring the `address` package: one variant (`ID`)
is a compact numeric identity, the others need resolution. -/
inductive Protocol where
  | ID
  | SECP256K1
  | Actor
  | BLS
  | Unknown
  deriving DecidableEq, Repr

/-- An address: a protocol tag plus a numeric payload. -/
structure Address where
  protocol : Protocol
  payload : Nat
  deriving DecidableEq, Repr

/-- `address.Undef`, the zero address. -/
def undefAddress : Address := ⟨Protocol.Unknown, 0⟩

/-- Modelled from the spec: the reserved "init" actor lives at a
distinguished ID address (`address.InitAddress`). -/
def initAddress : Address := ⟨Protocol.ID, 0⟩

/-- `address.NewIDAddress`: builds an ID-protocol address from a numeric
identity (total for machine-word identities). -/
def newIDAddress (id : Nat) : Address := ⟨Protocol.ID, id⟩

/-- An actor record: code identifier, balance, nonce (`CallSeqNum`) and a
head-state reference. -/
structure Actor where
  code : Nat
  balance : Nat
  callSeqNum : Nat
  head : Nat
  deriving DecidableEq, Repr

/-- An unsigned message, as in `types.UnsignedMessage`. -/
structure UnsignedMessage where
  From : Address
  To : Address
  callSeqNum : Nat
  value : Nat
  method : Nat
  params : List Nat
  gasPrice : Nat
  gasLimit : Nat
  deriving DecidableEq, Repr

/-- A message receipt: exit code, gas charge, return byte segments. -/
structure MessageReceipt where
  exitCode : Nat
  gasAttoFIL : Nat
  ret : List (List Nat)
  deriving DecidableEq, Repr

/-- The sentinel revert errors declared at the top of `processor.go`;
Go compares them by identity, so they are an enumeration here. -/
inductive SentinelErr where
  | fromAccountNotFound
  | gasAboveBlockLimit
  | gasPriceZero
  | gasTooHighForCurrentBlock
  | nonceTooHigh
  | nonceTooLow
  | nonAccountActor
  | negativeValue
  | insufficientGas
  | invalidSignature
  | selfSend
  | cannotTransferNegativeValue
  deriving DecidableEq, Repr

/-- Errors flowing through the processor: the sentinel revert errors, the
`errors` package's fault / permanent / temporary wrappers, and the state
tree's distinguishable actor-not-found error. -/
inductive PErr where
  | sentinel (e : SentinelErr)
  | fault (m : String)
  | permanentWrap (m : String)
  | temporaryWrap (m : String)
  | actorNotFound
  deriving DecidableEq, Repr

/-- `errors.IsFault`. -/
def PErr.isFault : PErr → Bool
  | .fault _ => true
  | _ => false

/-- `errors.IsApplyErrorPermanent`. -/
def isApplyErrorPermanent : PErr → Bool
  | .permanentWrap _ => true
  | _ => false

/-- `errors.IsApplyErrorTemporary`. -/
def isApplyErrorTemporary : PErr → Bool
  | .temporaryWrap _ => true
  | _ => false

/-- `isTemporaryError` from `processor.go`: identity comparison against
`errFromAccountNotFound`, `errNonceTooHigh`, `errGasTooHighForCurrentBlock`. -/
def isTemporaryError (e : PErr) : Bool :=
  e = .sentinel .fromAccountNotFound ∨
  e = .sentinel .nonceTooHigh ∨
  e = .sentinel .gasTooHighForCurrentBlock

/-- `isPermanentError` from `processor.go`. -/
def isPermanentError (e : PErr) : Bool :=
  e = .sentinel .insufficientGas ∨
  e = .sentinel .selfSend ∨
  e = .sentinel .invalidSignature ∨
  e = .sentinel .nonceTooLow ∨
  e = .sentinel .nonAccountActor ∨
  e = .sentinel .negativeValue ∨
  e = .sentinel .cannotTransferNegativeValue ∨
  e = .sentinel .gasAboveBlockLimit

/-- Modelled from the spec: `errors.CodeError` maps a failure to a nonzero
receipt exit code (0 = success, nonzero = a tagged failure). -/
def codeError (_e : PErr) : Nat := 1

/-- `errors.CodeError` applied to a possibly-nil Go error. -/
def codeErrorOpt : Option PErr → Nat
  | none => 0
  | some e => codeError e

/-- `errors.IsFault` applied to a possibly-nil Go error. -/
def optIsFault : Option PErr → Bool
  | none => false
  | some e => e.isFault

/-- A state tree: an association list keyed by address. -/
def StateTree : Type := List (Address × Actor)

instance : DecidableEq StateTree := by
  unfold StateTree
  infer_instance

/-- Look up an actor in a tree. -/
def StateTree.find : StateTree → Address → Option Actor
  | [], _ => none
  | (a, act) :: rest, addr => if a = addr then some act else StateTree.find rest addr

/-- `state.Tree.GetActor`: actor-not-found is a distinguishable error kind. -/
def StateTree.getActor (t : StateTree) (addr : Address) : Except PErr Actor :=
  match t.find addr with
  | some act => .ok act
  | none => .error .actorNotFound

/-- Modelled from the spec: a Cached Tree is a copy-on-write overlay over a
base tree — reads fall through to the base, writes are buffered in the
overlay, and nothing reaches the base absent an explicit commit. -/
structure CachedTree where
  base : StateTree
  cache : StateTree
  deriving DecidableEq

/-- `state.NewCachedTree`: wrap a base tree with an empty overlay. -/
def newCachedTree (t : StateTree) : CachedTree := ⟨t, []⟩

/-- `state.CachedTree.GetActor`: overlay first, base on miss. -/
def CachedTree.getActor (st : CachedTree) (addr : Address) : Except PErr Actor :=
  match st.cache.find addr with
  | some act => .ok act
  | none => StateTree.getActor st.base addr

/-- A buffered write: only the overlay changes, never the base. -/
def CachedTree.setActor (st : CachedTree) (addr : Address) (act : Actor) : CachedTree :=
  ⟨st.base, (addr, act) :: st.cache⟩

/-- Apply a trace of buffered writes to a cached tree. -/
def applyWrites (st : CachedTree) : List (Address × Actor) → CachedTree
  | [] => st
  | (a, act) :: rest => applyWrites (st.setActor a act) rest

/-- Modelled from the spec: the fixed block-level gas limit
(`types.BlockGasLimit`). -/
def blockGasLimit : Nat := 10000000000

/-- `vm.LegacyGasTracker`: per-message limit and counters plus the
block-level running consumption. -/
structure LegacyGasTracker where
  msgGasLimit : Nat
  gasConsumedByBlock : Nat
  gasConsumedByMessage : Nat
  deriving DecidableEq, Repr

/-- `vm.NewLegacyGasTracker`: all counters zero. -/
def newLegacyGasTracker : LegacyGasTracker := ⟨0, 0, 0⟩

/-- Modelled from the spec: reset at the start of each message's attempt —
the per-message counter is cleared and the per-message limit taken from
the message. -/
def LegacyGasTracker.resetForNewMessage (gt : LegacyGasTracker)
    (msg : UnsignedMessage) : LegacyGasTracker :=
  { gt with msgGasLimit := msg.gasLimit, gasConsumedByMessage := 0 }

/-- Modelled from the spec: the message's gas limit exceeds the block's
total capacity. -/
def LegacyGasTracker.gasAboveBlockLimit (gt : LegacyGasTracker) : Bool :=
  gt.msgGasLimit > blockGasLimit

/-- Modelled from the spec: the message's gas limit exceeds what remains in
the current block (but not necessarily the absolute capacity). -/
def LegacyGasTracker.gasTooHighForCurrentBlock (gt : LegacyGasTracker) : Bool :=
  gt.gasConsumedByBlock + gt.msgGasLimit > blockGasLimit

/-- Modelled from the spec: charging gas fails once the per-message counter
would exceed the message's own limit; a failed charge changes nothing. -/
def LegacyGasTracker.charge (gt : LegacyGasTracker) (cost : Nat) :
    Option LegacyGasTracker :=
  if gt.gasConsumedByMessage + cost ≤ gt.msgGasLimit then
    some { gt with
            gasConsumedByMessage := gt.gasConsumedByMessage + cost,
            gasConsumedByBlock := gt.gasConsumedByBlock + cost }
  else
    none

/-- The tracker after a VM execution that attempted the given sequence of
gas charges: successful charges accumulate, the first failing charge
aborts the execution leaving the tracker at its last good state. -/
def chargeList (gt : LegacyGasTracker) : List Nat → LegacyGasTracker
  | [] => gt
  | c :: cs =>
    match gt.charge c with
    | some gt' => chargeList gt' cs
    | none => gt

/-- `blockGasLimitError` from `processor.go`. -/
def blockGasLimitError (gt : LegacyGasTracker) : Option PErr :=
  if gt.gasAboveBlockLimit then some (.sentinel .gasAboveBlockLimit)
  else if gt.gasTooHighForCurrentBlock then some (.sentinel .gasTooHighForCurrentBlock)
  else none


/-- A block: height plus the ticket ordering blocks within a tip-set. -/
structure Block where
  height : Nat
  ticket : Nat
  deriving DecidableEq, Repr

/-- A tip-set: the candidate blocks at one height. -/
structure TipSet where
  blocks : List Block
  deriving DecidableEq, Repr

/-- Modelled from the spec: `TipSet.Height` — the common height of the
blocks, undeterminable (an error) exactly when the tip-set is empty. -/
def TipSet.height (ts : TipSet) : Except String Nat :=
  match ts.blocks with
  | [] => .error "no height for empty tipset"
  | b :: _ => .ok b.height

/-- The message batch contributed by one block (`vm.BlockMessagesInfo`). -/
structure BlockMessagesInfo where
  messages : List UnsignedMessage
  deriving DecidableEq, Repr

/-- `vm.NewContextParams`: the execution context handed to the VM. -/
structure NewContextParams where
  fromActor : Option Actor
  toActor : Actor
  toAddr : Address
  message : UnsignedMessage
  originMsg : UnsignedMessage
  state : CachedTree
  gasTracker : LegacyGasTracker
  blockHeight : Option Nat
  ancestors : List TipSet

/-- The observable outcome of one `vm.Send`: return byte segments, an exit
code, a possible error, the state writes it buffered through the cached
tree, and the gas charges it attempted against its tracker. -/
structure SendRes where
  ret : List (List Nat)
  exitCode : Nat
  vmErr : Option PErr
  writes : List (Address × Actor)
  costs : List Nat

/-- The external collaborators (VM and init actor), given as arbitrary
functions: `lookupID` is `initactor.LookupIDAddress`, `send` is `vm.Send`,
`initExec` the init-actor exec sub-call (returning its buffered writes and
the tracker it leaves behind), `getActorID` the
`init.GetActorIDForAddress` sub-call (`none` models a non-integer return),
and `applyTipSetMessages` is `vm.ApplyTipSetMessages`. -/
structure VMEnv where
  lookupID : CachedTree → Address → Except PErr (Option Nat)
  send : NewContextParams → SendRes
  initExec : CachedTree → Address → LegacyGasTracker →
    List (Address × Actor) × LegacyGasTracker
  getActorID : CachedTree → Address → LegacyGasTracker →
    Option Nat × LegacyGasTracker
  applyTipSetMessages : StateTree → List BlockMessagesInfo → Nat →
    Except PErr (List MessageReceipt)

/-- `ResolveAddress` from `processor.go`: an ID address resolves to itself
with no state access; otherwise the init actor is loaded and its ID-lookup
capability consulted — absence is `found = false`, not an error.  The gas
tracker parameter is accepted (as in the source) but unused. -/
def ResolveAddress (env : VMEnv) (addr : Address) (st : CachedTree)
    (_gt : LegacyGasTracker) : Except PErr (Address × Bool) :=
  if addr.protocol = Protocol.ID then
    .ok (addr, true)
  else
    match st.getActor initAddress with
    | .error e => .error e
    | .ok _ =>
      match env.lookupID st addr with
      | .error e => .error e
      | .ok none => .ok (undefAddress, false)
      | .ok (some id) => .ok (newIDAddress id, true)

/-- The fixed internal gas tracker under which actor provisioning runs:
fresh counters and `MsgGasLimit = 10000` (`noopGT` in `getOrCreateActor`). -/
def provisionTracker : LegacyGasTracker :=
  { newLegacyGasTracker with msgGasLimit := 10000 }

/-- The provisioning sub-calls of `getOrCreateActor`: run the init actor's
exec capability under the fresh internal `provisionTracker` (applying its
buffered writes to the overlay), then re-query `GetActorIDForAddress`
under the tracker the exec call left behind.  Returns the decoded identity
(`none` for a non-integer return) and the extended overlay. -/
def provisionStep (env : VMEnv) (st : CachedTree) (addr : Address) :
    Option Nat × CachedTree :=
  ((env.getActorID (applyWrites st (env.initExec st addr provisionTracker).1)
      addr (env.initExec st addr provisionTracker).2).1,
   applyWrites st (env.initExec st addr provisionTracker).1)

/-- `getOrCreateActor` from `processor.go`: resolve, and on success load
the actor; otherwise provision a new account actor through the init
actor's exec capability under the internal `provisionTracker`, re-query
the assigned ID, and load the result.  Returns the possibly-extended
cached tree and the caller's tracker. -/
def getOrCreateActor (env : VMEnv) (st : CachedTree) (addr : Address)
    (gt : LegacyGasTracker) :
    Except PErr (Actor × Address) × CachedTree × LegacyGasTracker :=
  match ResolveAddress env addr st gt with
  | .error e => (.error e, st, gt)
  | .ok (idAddr, true) =>
    (match st.getActor idAddr with
     | .error e => (.error e, st, gt)
     | .ok act => (.ok (act, idAddr), st, gt))
  | .ok (_, false) =>
    match st.getActor initAddress with
    | .error e => (.error e, st, gt)
    | .ok _ =>
      match provisionStep env st addr with
      | (none, st1) =>
        (.error (.fault "non-integer return from GetActorIDForAddress"), st1, gt)
      | (some id, st1) =>
        (match st1.getActor (newIDAddress id) with
         | .error e => (.error e, st1, gt)
         | .ok act => (.ok (act, newIDAddress id), st1, gt))

/-- `DefaultProcessor`: carries the pluggable message-validation
capability. -/
structure DefaultProcessor where
  validator : UnsignedMessage → Actor → Option PErr

/-- `directMessageValidator.Validate`: always accepts. -/
def directMessageValidator : UnsignedMessage → Actor → Option PErr :=
  fun _ _ => none

/-- Modelled from the spec: the nonce-match portion of the default message
validator — nonce strictly below the sender recorded sequence is the
`nonce too low` rejection, strictly above is `nonce too high`, equal
passes. -/
def nonceCheck (msg : UnsignedMessage) (fromActor : Actor) : Option PErr :=
  if msg.callSeqNum < fromActor.callSeqNum then
    some (.sentinel .nonceTooLow)
  else if fromActor.callSeqNum < msg.callSeqNum then
    some (.sentinel .nonceTooHigh)
  else
    none

/-- `attemptApplyMessage` from `processor.go`: gas admission, sender
resolution, sender load, validation, receiver provisioning, VM execution,
settle.  Returns the receipt/error pair and the resulting cached tree. -/
def attemptApplyMessage (p : DefaultProcessor) (env : VMEnv)
    (st : CachedTree) (msg : UnsignedMessage) (bh : Option Nat)
    (gt0 : LegacyGasTracker) (ancestors : List TipSet) :
    (Option MessageReceipt × Option PErr) × CachedTree :=
  let gt := gt0.resetForNewMessage msg
  match blockGasLimitError gt with
  | some err => ((some ⟨codeError err, 0, []⟩, some err), st)
  | none =>
    match ResolveAddress env msg.From st gt with
    | .error _ => ((none, some (.fault "Could not resolve actor address")), st)
    | .ok (fromAddr, found) =>
      if found = false then
        ((some ⟨codeErrorOpt none, 0, []⟩, some (.sentinel .fromAccountNotFound)), st)
      else
        match st.getActor fromAddr with
        | .error .actorNotFound =>
          ((some ⟨codeError .actorNotFound, 0, []⟩,
            some (.sentinel .fromAccountNotFound)), st)
        | .error _ => ((none, some (.fault "failed to get From actor")), st)
        | .ok fromActor =>
          match p.validator msg fromActor with
          | some err => ((some ⟨codeError err, 0, []⟩, some err), st)
          | none =>
            match getOrCreateActor env st msg.To gt with
            | (.error _, st1, _) =>
              ((none, some (.fault "failed to get To actor")), st1)
            | (.ok (toActor, toAddr), st1, gt1) =>
              let ctx : NewContextParams :=
                ⟨some fromActor, toActor, toAddr, msg, msg, st1, gt1, bh, ancestors⟩
              let res := env.send ctx
              let st2 := applyWrites st1 res.writes
              let gtF := chargeList gt1 res.costs
              if optIsFault res.vmErr then
                ((none, res.vmErr), st2)
              else
                ((some ⟨res.exitCode, msg.gasPrice * gtF.gasConsumedByMessage,
                        res.ret⟩, res.vmErr), st2)

/-- The zero-value query message built by `CallQueryMethod` and
`PreviewQueryMethod`: `CallSeqNum = 0`, zero value, no gas fields set. -/
def queryMsg (toA : Address) (method : Nat) (params : List Nat)
    (fromAddr : Address) : UnsignedMessage :=
  ⟨fromAddr, toA, 0, 0, method, params, 0, 0⟩

/-- The query gas tracker: fresh, with the per-message limit set to the
block maximum so a query never fails for lack of gas. -/
def queryGasTracker : LegacyGasTracker :=
  { newLegacyGasTracker with msgGasLimit := blockGasLimit }

/-- The part of `CallQueryMethod` up to VM invocation: build the throwaway
overlay and query message, resolve the target (`found = false` and a
missing actor record are permanent-class rejections, a resolution error is
a fault), and assemble the execution context. -/
def CallQueryMethodCtx (env : VMEnv) (st : StateTree) (toA : Address)
    (method : Nat) (params : List Nat) (fromAddr : Address)
    (optBh : Option Nat) : Except PErr NewContextParams :=
  let cachedSt := newCachedTree st
  let msg := queryMsg toA method params fromAddr
  let gt := queryGasTracker
  match ResolveAddress env msg.To cachedSt gt with
  | .error _ => .error (.fault "Could not resolve actor address")
  | .ok (toAddr, found) =>
    if found = false then
      .error (.permanentWrap "failed to resolve To actor")
    else
      match st.getActor toAddr with
      | .error _ => .error (.permanentWrap "failed to get To actor")
      | .ok toActor =>
        .ok ⟨none, toActor, toAddr, msg, msg, cachedSt, gt, optBh, []⟩

/-- `CallQueryMethod` from `processor.go`: returns the VM's raw return
bytes, exit code and error, plus the base state tree as it stands after
the call (the overlay is discarded, never committed). -/
def CallQueryMethod (env : VMEnv) (st : StateTree) (toA : Address)
    (method : Nat) (params : List Nat) (fromAddr : Address)
    (optBh : Option Nat) :
    (List (List Nat) × Nat × Option PErr) × StateTree :=
  match CallQueryMethodCtx env st toA method params fromAddr optBh with
  | .error e => (([], 1, some e), st)
  | .ok ctx =>
    let res := env.send ctx
    let final := applyWrites ctx.state res.writes
    ((res.ret, res.exitCode, res.vmErr), final.base)

/-- `PreviewQueryMethod` from `processor.go`: like `CallQueryMethod` but
provisions the target through `getOrCreateActor` and returns the gas units
consumed; also returns the base state tree after the call. -/
def PreviewQueryMethod (env : VMEnv) (st : StateTree) (toA : Address)
    (method : Nat) (params : List Nat) (fromAddr : Address)
    (optBh : Option Nat) : (Nat × Option PErr) × StateTree :=
  let cachedSt := newCachedTree st
  let msg := queryMsg toA method params fromAddr
  let gt := queryGasTracker
  match getOrCreateActor env cachedSt msg.To gt with
  | (.error _, st1, _) => ((0, some (.fault "failed to get To actor")), st1.base)
  | (.ok (toActor, toAddr), st1, gt1) =>
    let ctx : NewContextParams :=
      ⟨none, toActor, toAddr, msg, msg, st1, gt1, optBh, []⟩
    let res := env.send ctx
    let st2 := applyWrites st1 res.writes
    let gtF := chargeList gt1 res.costs
    ((gtF.gasConsumedByMessage, res.vmErr), st2.base)

/-- `ProcessTipSet` from `processor.go`: determine the tip-set height (a
failure is a fault about processing an empty tipset), then hand the
message batches to the VM. -/
def ProcessTipSet (env : VMEnv) (st : StateTree) (ts : TipSet)
    (msgs : List BlockMessagesInfo) : Except PErr (List MessageReceipt) :=
  match ts.height with
  | .error _ => .error (.fault "processing empty tipset")
  | .ok h => env.applyTipSetMessages st msgs h

/-- `ApplicationResult`: the result of successfully applying one message. -/
structure ApplicationResult where
  receipt : Option MessageReceipt
  executionError : Option PErr
  deriving DecidableEq, Repr

/-- `ApplyMessageResult`: application result, failure, and whether the
failure is permanent. -/
structure ApplyMessageResult where
  appResult : ApplicationResult
  failure : Option PErr
  failureIsPermanent : Bool
  deriving DecidableEq, Repr

/-- `ApplyMessagesAndPayRewards` from `processor.go`, as it stands in the
source: the reward payment and the per-message loop are commented out, and
the body unconditionally returns a nil result list together with the error
`re-write or delete`. -/
def ApplyMessagesAndPayRewards (_p : DefaultProcessor) (_st : StateTree)
    (_messages : List UnsignedMessage) (_minerOwnerAddr : Address)
    (_bh : Option Nat) (_ancestors : List TipSet) :
    List ApplyMessageResult × Option String :=
  ([], some "re-write or delete")

/-- `ApplyMessageDirect` from `processor.go`, as it stands in the source:
returns an empty byte slice and a nil error for every input. -/
def ApplyMessageDirect (_st : StateTree) (_vms : List Nat) (_from _to : Address)
    (_nonce : Nat) (_value : Nat) (_method : Nat)
    (_params : List (List Nat)) : List Nat × Option PErr :=
  ([], none)

/-- A concrete trivial environment used to exercise the definitions on
closed inputs: the init actor knows no mappings, the VM returns success
with no writes and no gas charges. -/
def trivEnv : VMEnv where
  lookupID := fun _ _ => .ok none
  send := fun _ => ⟨[], 0, none, [], []⟩
  initExec := fun _ _ g => ([], g)
  getActorID := fun _ _ g => (none, g)
  applyTipSetMessages := fun _ _ _ => .ok []

/-- Buffered writes never touch the base tree. -/
theorem applyWrites_base (ws : List (Address × Actor)) (st : CachedTree) :
    (applyWrites st ws).base = st.base := by
  induction ws generalizing st with
  | nil => rfl
  | cons w rest ih =>
    obtain ⟨a, act⟩ := w
    simpa [applyWrites, CachedTree.setActor] using ih (st.setActor a act)

/-- The provisioning step only extends the overlay: the base is untouched. -/
theorem provisionStep_base (env : VMEnv) (st : CachedTree) (addr : Address) :
    (provisionStep env st addr).2.base = st.base := by
  unfold provisionStep
  exact applyWrites_base _ _

/-- `getOrCreateActor` hands the caller's gas tracker back unchanged. -/
theorem getOrCreateActor_tracker (env : VMEnv) (st : CachedTree)
    (addr : Address) (gt : LegacyGasTracker) :
    (getOrCreateActor env st addr gt).2.2 = gt := by
  unfold getOrCreateActor
  split
  · rfl
  · split <;> rfl
  · split
    · rfl
    · split
      · rfl
      · split <;> rfl

/-- `getOrCreateActor` never touches the base of the cached tree. -/
theorem getOrCreateActor_base (env : VMEnv) (st : CachedTree)
    (addr : Address) (gt : LegacyGasTracker) :
    (getOrCreateActor env st addr gt).2.1.base = st.base := by
  unfold getOrCreateActor
  split
  · rfl
  · split <;> rfl
  · split
    · rfl
    · split
      · rename_i st1 h
        have : st1 = (provisionStep env st addr).2 := by rw [h]
        rw [this]
        exact provisionStep_base env st addr
      · rename_i id st1 h
        have h2 : st1 = (provisionStep env st addr).2 := by rw [h]
        split <;> simpa [h2] using provisionStep_base env st addr

/-- `getOrCreateActor` does not read the caller's gas tracker: both the
result and the resulting tree are independent of it. -/
theorem getOrCreateActor_tracker_independent (env : VMEnv) (st : CachedTree)
    (addr : Address) (gt gt' : LegacyGasTracker) :
    (getOrCreateActor env st addr gt).1 = (getOrCreateActor env st addr gt').1 ∧
    (getOrCreateActor env st addr gt).2.1 = (getOrCreateActor env st addr gt').2.1 := by
  have hres : ResolveAddress env addr st gt = ResolveAddress env addr st gt' := rfl
  unfold getOrCreateActor
  rw [hres]
  split
  · exact ⟨rfl, rfl⟩
  · split <;> exact ⟨rfl, rfl⟩
  · split
    · exact ⟨rfl, rfl⟩
    · split
      · exact ⟨rfl, rfl⟩
      · split <;> exact ⟨rfl, rfl⟩

/-- A charge never changes the per-message limit. -/
theorem chargeList_msgGasLimit (cs : List Nat) (gt : LegacyGasTracker) :
    (chargeList gt cs).msgGasLimit = gt.msgGasLimit := by
  induction cs generalizing gt with
  | nil => rfl
  | cons c rest ih =>
    unfold chargeList LegacyGasTracker.charge
    by_cases h : gt.gasConsumedByMessage + c ≤ gt.msgGasLimit
    · simpa [h] using ih _
    · simp [h]

/-- Successful charges keep the per-message counter within the limit. -/
theorem chargeList_le (cs : List Nat) (gt : LegacyGasTracker)
    (h : gt.gasConsumedByMessage ≤ gt.msgGasLimit) :
    (chargeList gt cs).gasConsumedByMessage ≤ (chargeList gt cs).msgGasLimit := by
  induction cs generalizing gt with
  | nil => exact h
  | cons c rest ih =>
    unfold chargeList LegacyGasTracker.charge
    by_cases hc : gt.gasConsumedByMessage + c ≤ gt.msgGasLimit
    · simp only [hc, if_pos]
      exact ih _ (by simpa using hc)
    · simpa [hc] using h

/-- A concrete processor with the pass-through validator from the source. -/
def pDirect : DefaultProcessor := ⟨directMessageValidator⟩

/-- Claim C9: for every input (any from/to addresses, nonce, value, method
and parameters), `ApplyMessageDirect` returns an empty byte slice and a
nil error, independent of the given state tree and storage map. -/
theorem applyMessageDirect_const (st st' : StateTree) (vms vms' : List Nat)
    (fromA toA : Address) (nonce value method : Nat)
    (params : List (List Nat)) :
    ApplyMessageDirect st vms fromA toA nonce value method params = ([], none) ∧
    ApplyMessageDirect st vms fromA toA nonce value method params =
      ApplyMessageDirect st' vms' fromA toA nonce value method params :=
  ⟨rfl, rfl⟩

/-- Claim C1 (code bug): `ApplyMessagesAndPayRewards` is documented to pay
the block reward and return one result per message, but the source body is
disabled: for every input it returns an empty result list together with
the error `re-write or delete` — in particular, a one-message batch does
not get one `ApplyMessageResult`. -/
theorem applyMessagesAndPayRewards_stub (p : DefaultProcessor)
    (st : StateTree) (msgs : List UnsignedMessage) (owner : Address)
    (bh : Option Nat) (anc : List TipSet) :
    ApplyMessagesAndPayRewards p st msgs owner bh anc =
      ([], some "re-write or delete") ∧
    (ApplyMessagesAndPayRewards p st msgs owner bh anc).1.length = 0 :=
  ⟨rfl, rfl⟩

/-- Claim C10: `getOrCreateActor` runs the provisioning sub-calls under the
fixed fresh internal tracker with limit 10000, so the caller's tracker is
returned unchanged and neither the result nor the tree depends on it,
regardless of the address being provisioned. -/
theorem getOrCreateActor_provisioning_frame (env : VMEnv) (st : CachedTree)
    (addr : Address) (gt gt' : LegacyGasTracker) :
    (getOrCreateActor env st addr gt).2.2 = gt ∧
    provisionTracker = ⟨10000, 0, 0⟩ ∧
    (getOrCreateActor env st addr gt).1 = (getOrCreateActor env st addr gt').1 ∧
    (getOrCreateActor env st addr gt).2.1 = (getOrCreateActor env st addr gt').2.1 := by
  obtain ⟨h1, h2⟩ := getOrCreateActor_tracker_independent env st addr gt gt'
  exact ⟨getOrCreateActor_tracker env st addr gt, rfl, h1, h2⟩

/-- Claim C8: when the tip-set's height cannot be determined (in
particular when it is empty), `ProcessTipSet` returns a fault with no
receipt list, and the result does not depend on the VM, the state tree or
the message batches. -/
theorem processTipSet_heightless_fault (env env' : VMEnv) (st st' : StateTree)
    (ts : TipSet) (msgs msgs' : List BlockMessagesInfo) (e : String)
    (h : ts.height = .error e) :
    ProcessTipSet env st ts msgs = .error (.fault "processing empty tipset") ∧
    ProcessTipSet env st ts msgs = ProcessTipSet env' st' ts msgs' ∧
    (ts.blocks = [] → ts.height = Except.error "no height for empty tipset") := by
  refine ⟨?_, ?_, ?_⟩
  · unfold ProcessTipSet
    rw [h]
  · unfold ProcessTipSet
    rw [h]
  · intro hb
    unfold TipSet.height
    rw [hb]

/-- Claim C8 witness: the empty tip-set concretely yields the fault. -/
theorem processTipSet_heightless_fault_witness :
    ProcessTipSet trivEnv ([] : StateTree) ⟨[]⟩ [] =
      .error (.fault "processing empty tipset") :=
  (processTipSet_heightless_fault trivEnv trivEnv [] [] ⟨[]⟩ [] [] _ rfl).1

/-- Claim C5: an ID address resolves to itself with `found = true`,
independent of the state tree and the init-actor lookup; and any
successful resolution yields an ID address, so resolving the result of a
resolution returns the same address (idempotence). -/
theorem resolveAddress_id (env env' : VMEnv) (addr : Address)
    (st st' : CachedTree) (gt gt' : LegacyGasTracker)
    (h : addr.protocol = Protocol.ID) :
    ResolveAddress env addr st gt = .ok (addr, true) ∧
    ResolveAddress env addr st gt = ResolveAddress env' addr st' gt' ∧
    (∀ a b : Address, ResolveAddress env a st gt = .ok (b, true) →
      ResolveAddress env' b st' gt' = .ok (b, true)) := by
  refine ⟨by unfold ResolveAddress; simp [h], by unfold ResolveAddress; simp [h], ?_⟩
  intro a b hab
  have hb : b.protocol = Protocol.ID := by
    unfold ResolveAddress at hab
    by_cases ha : a.protocol = Protocol.ID
    · simp only [ha, if_pos] at hab
      obtain ⟨rfl, -⟩ : a = b ∧ True := by
        cases hab
        exact ⟨rfl, trivial⟩
      exact ha
    · simp only [ha, if_neg, ite_false] at hab
      cases hinit : st.getActor initAddress with
      | error e => rw [hinit] at hab; cases hab
      | ok i =>
        rw [hinit] at hab
        cases hlk : env.lookupID st a with
        | error e => rw [hlk] at hab; cases hab
        | ok o =>
          rw [hlk] at hab
          cases o with
          | none => cases hab
          | some id =>
            cases hab
            rfl
  unfold ResolveAddress
  simp [hb]

/-- Claim C5 witness: a concrete ID address resolves to itself, state-free
and idempotently. -/
theorem resolveAddress_id_witness :
    ResolveAddress trivEnv ⟨Protocol.ID, 7⟩ (newCachedTree []) newLegacyGasTracker =
      .ok (⟨Protocol.ID, 7⟩, true) ∧
    ResolveAddress trivEnv ⟨Protocol.ID, 7⟩ (newCachedTree [])
        newLegacyGasTracker =
      ResolveAddress trivEnv ⟨Protocol.ID, 7⟩
        (newCachedTree [(⟨Protocol.ID, 7⟩, ⟨0, 0, 0, 0⟩)]) newLegacyGasTracker := by
  have h := resolveAddress_id trivEnv trivEnv ⟨Protocol.ID, 7⟩ (newCachedTree [])
    (newCachedTree [(⟨Protocol.ID, 7⟩, ⟨0, 0, 0, 0⟩)]) newLegacyGasTracker
    newLegacyGasTracker rfl
  exact ⟨h.1, h.2.1⟩

/-- Claim C3: a nonce strictly below the sender's recorded sequence is the
`nonce too low` rejection, classified permanent and not temporary; a nonce
strictly above is `nonce too high`, classified temporary and not
permanent; an equal nonce passes the check. -/
theorem nonce_classification (msg : UnsignedMessage) (act : Actor) :
    (msg.callSeqNum < act.callSeqNum →
      nonceCheck msg act = some (.sentinel .nonceTooLow) ∧
      isPermanentError (.sentinel .nonceTooLow) = true ∧
      isTemporaryError (.sentinel .nonceTooLow) = false) ∧
    (act.callSeqNum < msg.callSeqNum →
      nonceCheck msg act = some (.sentinel .nonceTooHigh) ∧
      isTemporaryError (.sentinel .nonceTooHigh) = true ∧
      isPermanentError (.sentinel .nonceTooHigh) = false) ∧
    (msg.callSeqNum = act.callSeqNum → nonceCheck msg act = none) := by
  refine ⟨?_, ?_, ?_⟩ <;> intro h
  · exact ⟨by unfold nonceCheck; simp [h], by decide, by decide⟩
  · refine ⟨?_, by decide, by decide⟩
    unfold nonceCheck
    have h1 : ¬ msg.callSeqNum < act.callSeqNum := Nat.not_lt.mpr (Nat.le_of_lt h)
    simp [h1, h]
  · unfold nonceCheck
    simp [h]

/-- Claim C3 witness: concrete nonces 3 (too low), 7 (too high) and 5
(equal) against recorded sequence 5. -/
theorem nonce_classification_witness :
    nonceCheck ⟨undefAddress, undefAddress, 3, 0, 0, [], 0, 0⟩ ⟨0, 0, 5, 0⟩ =
      some (.sentinel .nonceTooLow) ∧
    nonceCheck ⟨undefAddress, undefAddress, 7, 0, 0, [], 0, 0⟩ ⟨0, 0, 5, 0⟩ =
      some (.sentinel .nonceTooHigh) ∧
    nonceCheck ⟨undefAddress, undefAddress, 5, 0, 0, [], 0, 0⟩ ⟨0, 0, 5, 0⟩ =
      none := by
  refine ⟨?_, ?_, ?_⟩
  · exact ((nonce_classification ⟨undefAddress, undefAddress, 3, 0, 0, [], 0, 0⟩
      ⟨0, 0, 5, 0⟩).1 (by decide)).1
  · exact ((nonce_classification ⟨undefAddress, undefAddress, 7, 0, 0, [], 0, 0⟩
      ⟨0, 0, 5, 0⟩).2.1 (by decide)).1
  · exact (nonce_classification ⟨undefAddress, undefAddress, 5, 0, 0, [], 0, 0⟩
      ⟨0, 0, 5, 0⟩).2.2 (by decide)

/-- A message whose gas limit (6e9) is below the absolute block limit but
exceeds what remains in a block that already consumed 5e9. -/
def msgRemainingOnly : UnsignedMessage :=
  ⟨⟨Protocol.ID, 1⟩, ⟨Protocol.ID, 2⟩, 0, 0, 0, [], 1, 6000000000⟩

/-- A tracker for a block that has already consumed 5e9 gas units. -/
def gtHalfBlock : LegacyGasTracker := ⟨0, 5000000000, 0⟩

/-- A message whose gas limit exceeds the absolute block limit. -/
def msgAboveBlock : UnsignedMessage :=
  ⟨⟨Protocol.ID, 1⟩, ⟨Protocol.ID, 2⟩, 0, 0, 0, [], 1, 10000000001⟩

/-- Claim C2 counterexample: a message whose gas limit only exceeds the
remaining block budget is rejected at gas admission with
`errGasTooHighForCurrentBlock`, which the source classifies as temporary,
not permanent — refuting the claim that every gas-admission rejection is
permanent-class. -/
theorem attempt_gas_admission_not_permanent :
    (attemptApplyMessage pDirect trivEnv (newCachedTree []) msgRemainingOnly
        none gtHalfBlock []).1 =
      (some ⟨1, 0, []⟩, some (.sentinel .gasTooHighForCurrentBlock)) ∧
    isPermanentError (.sentinel .gasTooHighForCurrentBlock) = false ∧
    isTemporaryError (.sentinel .gasTooHighForCurrentBlock) = true := by
  refine ⟨?_, by decide, by decide⟩
  rfl

/-- Claim C2 (amended): a message rejected at gas admission always gets a
zero-gas receipt carrying the admission error, and the VM is never invoked
(the outcome does not depend on the VM environment); the rejection is
permanent-class exactly when the gas limit exceeds the absolute block
limit, and temporary-class when it only exceeds the remaining block
budget. -/
theorem attempt_gas_admission (p : DefaultProcessor) (env env' : VMEnv)
    (st : CachedTree) (msg : UnsignedMessage) (bh : Option Nat)
    (gt0 : LegacyGasTracker) (anc : List TipSet) (e : PErr)
    (h : blockGasLimitError (gt0.resetForNewMessage msg) = some e) :
    attemptApplyMessage p env st msg bh gt0 anc =
      ((some ⟨codeError e, 0, []⟩, some e), st) ∧
    attemptApplyMessage p env st msg bh gt0 anc =
      attemptApplyMessage p env' st msg bh gt0 anc ∧
    ((gt0.resetForNewMessage msg).gasAboveBlockLimit = true →
      e = .sentinel .gasAboveBlockLimit ∧
      isPermanentError e = true ∧ isTemporaryError e = false) ∧
    ((gt0.resetForNewMessage msg).gasAboveBlockLimit = false →
      e = .sentinel .gasTooHighForCurrentBlock ∧
      isTemporaryError e = true ∧ isPermanentError e = false) := by
  refine ⟨?_, ?_, ?_, ?_⟩
  · unfold attemptApplyMessage
    simp only [h]
  · unfold attemptApplyMessage
    simp only [h]
  · intro hab
    unfold blockGasLimitError at h
    rw [hab] at h
    simp only [if_true, if_pos] at h
    cases h
    exact ⟨rfl, by decide, by decide⟩
  · intro hab
    unfold blockGasLimitError at h
    rw [hab] at h
    simp only [Bool.false_eq_true, if_false, ite_false] at h
    by_cases ht : (gt0.resetForNewMessage msg).gasTooHighForCurrentBlock
    · rw [if_pos ht] at h
      cases h
      exact ⟨rfl, by decide, by decide⟩
    · rw [if_neg ht] at h
      cases h

/-- Claim C2 witness (amended): a message with gas limit above the
absolute block capacity concretely yields the zero-gas receipt, the
permanent-class `errGasAboveBlockLimit`, and a VM-independent outcome. -/
theorem attempt_gas_admission_witness :
    attemptApplyMessage pDirect trivEnv (newCachedTree []) msgAboveBlock
        none newLegacyGasTracker [] =
      ((some ⟨1, 0, []⟩, some (.sentinel .gasAboveBlockLimit)),
        newCachedTree []) ∧
    isPermanentError (.sentinel .gasAboveBlockLimit) = true := by
  have h := attempt_gas_admission pDirect trivEnv trivEnv (newCachedTree [])
    msgAboveBlock none newLegacyGasTracker [] (.sentinel .gasAboveBlockLimit)
    (by decide)
  exact ⟨h.1, ((h.2.2.1 (by decide)).2.1)⟩

/-- Claim C4: whenever `attemptApplyMessage` reaches the settle step (gas
admitted, sender resolved and loaded, validation passed, receiver
provisioned, VM outcome not a fault), the receipt's gas charge is the
message's gas price times the gas units consumed by the VM context, and
those units never exceed the message's own gas limit. -/
theorem attempt_settle_gas (p : DefaultProcessor) (env : VMEnv)
    (st : CachedTree) (msg : UnsignedMessage) (bh : Option Nat)
    (gt0 : LegacyGasTracker) (anc : List TipSet) (fromAddr : Address)
    (fromActor toActor : Actor) (toAddr : Address) (st1 : CachedTree)
    (gt1 : LegacyGasTracker) (ctx : NewContextParams)
    (h1 : blockGasLimitError (gt0.resetForNewMessage msg) = none)
    (h2 : ResolveAddress env msg.From st (gt0.resetForNewMessage msg) =
      .ok (fromAddr, true))
    (h3 : st.getActor fromAddr = .ok fromActor)
    (h4 : p.validator msg fromActor = none)
    (h5 : getOrCreateActor env st msg.To (gt0.resetForNewMessage msg) =
      (.ok (toActor, toAddr), st1, gt1))
    (h6 : ctx = ⟨some fromActor, toActor, toAddr, msg, msg, st1, gt1, bh, anc⟩)
    (h7 : optIsFault (env.send ctx).vmErr = false) :
    (attemptApplyMessage p env st msg bh gt0 anc).1.1 =
      some ⟨(env.send ctx).exitCode,
            msg.gasPrice *
              (chargeList gt1 (env.send ctx).costs).gasConsumedByMessage,
            (env.send ctx).ret⟩ ∧
    (chargeList gt1 (env.send ctx).costs).gasConsumedByMessage ≤
      msg.gasLimit := by
  subst h6
  have hgt : gt1 = gt0.resetForNewMessage msg := by
    have h := getOrCreateActor_tracker env st msg.To (gt0.resetForNewMessage msg)
    rw [h5] at h
    exact h
  constructor
  · unfold attemptApplyMessage
    simp only [h1, h2, h3, h4, h5, h7]
    simp
  · have hstart : gt1.gasConsumedByMessage ≤ gt1.msgGasLimit := by
      rw [hgt]
      simp [LegacyGasTracker.resetForNewMessage]
    have hle := chargeList_le (env.send
      ⟨some fromActor, toActor, toAddr, msg, msg, st1, gt1, bh, anc⟩).costs gt1 hstart
    have hlim := chargeList_msgGasLimit (env.send
      ⟨some fromActor, toActor, toAddr, msg, msg, st1, gt1, bh, anc⟩).costs gt1
    rw [hlim] at hle
    have hml : gt1.msgGasLimit = msg.gasLimit := by
      rw [hgt]
      simp [LegacyGasTracker.resetForNewMessage]
    rw [hml] at hle
    exact hle

/-- Concrete fixtures: two ID-addressed actors. -/
def addrID1 : Address := ⟨Protocol.ID, 1⟩

/-- Second fixture address. -/
def addrID2 : Address := ⟨Protocol.ID, 2⟩

/-- The sender fixture actor, with recorded sequence 5. -/
def actorFromFix : Actor := ⟨10, 500, 5, 0⟩

/-- The receiver fixture actor. -/
def actorToFix : Actor := ⟨11, 200, 0, 0⟩

/-- A cached tree holding the two fixture actors. -/
def stFix : CachedTree :=
  newCachedTree [(addrID1, actorFromFix), (addrID2, actorToFix)]

/-- A valid fixture message: nonce 5, gas price 2, gas limit 100. -/
def msgFix : UnsignedMessage := ⟨addrID1, addrID2, 5, 10, 3, [], 2, 100⟩

/-- An environment whose VM send succeeds, returning bytes `[7]` and
attempting two gas charges of 30 and 40 units. -/
def envSettle : VMEnv := { trivEnv with send := fun _ => ⟨[[7]], 0, none, [], [30, 40]⟩ }

/-- The fixture tracker after reset for `msgFix`. -/
def gtFixR : LegacyGasTracker := newLegacyGasTracker.resetForNewMessage msgFix

/-- The execution context the settle step builds for the fixtures. -/
def ctxFix : NewContextParams :=
  ⟨some actorFromFix, actorToFix, addrID2, msgFix, msgFix, stFix, gtFixR, none, []⟩

/-- Claim C4 witness: on the fixtures the VM consumes 70 ≤ 100 gas units
and the receipt charges price 2 × 70 = 140. -/
theorem attempt_settle_gas_witness :
    (attemptApplyMessage pDirect envSettle stFix msgFix none
        newLegacyGasTracker []).1.1 = some ⟨0, 140, [[7]]⟩ ∧
    (70 : Nat) ≤ msgFix.gasLimit := by
  have h := attempt_settle_gas pDirect envSettle stFix msgFix none
    newLegacyGasTracker [] addrID1 actorFromFix actorToFix addrID2 stFix
    gtFixR ctxFix (by decide) rfl rfl rfl rfl rfl rfl
  exact h

/-- Anything `CallQueryMethodCtx` hands to the VM runs over the throwaway
overlay wrapped around the given base tree. -/
theorem callQueryMethodCtx_state (env : VMEnv) (st : StateTree)
    (toA : Address) (method : Nat) (params : List Nat) (fromAddr : Address)
    (optBh : Option Nat) (ctx : NewContextParams)
    (h : CallQueryMethodCtx env st toA method params fromAddr optBh = .ok ctx) :
    ctx.state = newCachedTree st := by
  unfold CallQueryMethodCtx at h
  dsimp only at h
  split at h
  · cases h
  · split at h
    · cases h
    · split at h
      · cases h
      · cases h
        rfl

/-- Claim C7: neither `CallQueryMethod` nor `PreviewQueryMethod` alters
the base state tree, whatever the VM does over the overlay. -/
theorem query_preserves_base (env : VMEnv) (st : StateTree) (toA : Address)
    (method : Nat) (params : List Nat) (fromAddr : Address)
    (optBh : Option Nat) :
    (CallQueryMethod env st toA method params fromAddr optBh).2 = st ∧
    (PreviewQueryMethod env st toA method params fromAddr optBh).2 = st := by
  constructor
  · cases hctx : CallQueryMethodCtx env st toA method params fromAddr optBh with
    | error e => simp [CallQueryMethod, hctx]
    | ok ctx =>
      have hstate := callQueryMethodCtx_state env st toA method params fromAddr
        optBh ctx hctx
      simp [CallQueryMethod, hctx, applyWrites_base, hstate, newCachedTree]
  · unfold PreviewQueryMethod
    have hbase := getOrCreateActor_base env (newCachedTree st)
      (queryMsg toA method params fromAddr).To queryGasTracker
    dsimp only
    split
    · rename_i st1 gtr h
      rw [h] at hbase
      exact hbase
    · rename_i toActor toAddr st1 gt1 h
      rw [h] at hbase
      simpa [applyWrites_base] using hbase

/-- Claim C6: a query call whose target does not resolve, or resolves to an
address with no actor record, returns a permanent-class rejection (exit
code 1, neither a success nor a temporary rejection); every context that
reaches execution carries the block gas limit as its message gas limit, an
unresolved sender with nonce 0 and no sender actor; and whether the call
reaches execution is independent of the sender address (no sender
resolution, nonce or signature check). -/
theorem callQueryMethod_contract (env : VMEnv) (st : StateTree)
    (toA : Address) (method : Nat) (params : List Nat) (fromAddr : Address)
    (optBh : Option Nat) :
    (∀ ta, ResolveAddress env toA (newCachedTree st) queryGasTracker =
        .ok (ta, false) →
      (CallQueryMethod env st toA method params fromAddr optBh).1 =
        ([], 1, some (.permanentWrap "failed to resolve To actor")) ∧
      isApplyErrorPermanent (.permanentWrap "failed to resolve To actor") = true ∧
      isApplyErrorTemporary (.permanentWrap "failed to resolve To actor") = false) ∧
    (∀ ta e, ResolveAddress env toA (newCachedTree st) queryGasTracker =
        .ok (ta, true) →
      st.getActor ta = .error e →
      (CallQueryMethod env st toA method params fromAddr optBh).1 =
        ([], 1, some (.permanentWrap "failed to get To actor")) ∧
      isApplyErrorPermanent (.permanentWrap "failed to get To actor") = true ∧
      isApplyErrorTemporary (.permanentWrap "failed to get To actor") = false) ∧
    (∀ ctx, CallQueryMethodCtx env st toA method params fromAddr optBh =
        .ok ctx →
      ctx.gasTracker.msgGasLimit = blockGasLimit ∧
      ctx.message.callSeqNum = 0 ∧ ctx.message.From = fromAddr ∧
      ctx.fromActor = none) ∧
    (∀ f1 f2, (CallQueryMethodCtx env st toA method params f1 optBh).isOk =
      (CallQueryMethodCtx env st toA method params f2 optBh).isOk) := by
  refine ⟨?_, ?_, ?_, ?_⟩
  · intro ta hres
    refine ⟨?_, by decide, by decide⟩
    unfold CallQueryMethod CallQueryMethodCtx
    dsimp only
    rw [show (queryMsg toA method params fromAddr).To = toA from rfl]
    rw [hres]
    rfl
  · intro ta e hres hget
    refine ⟨?_, by decide, by decide⟩
    unfold CallQueryMethod CallQueryMethodCtx
    dsimp only
    rw [show (queryMsg toA method params fromAddr).To = toA from rfl]
    rw [hres]
    simp [hget]
  · intro ctx h
    unfold CallQueryMethodCtx at h
    dsimp only at h
    split at h
    · cases h
    · split at h
      · cases h
      · split at h
        · cases h
        · cases h
          exact ⟨rfl, rfl, rfl, rfl⟩
  · intro f1 f2
    unfold CallQueryMethodCtx
    dsimp only
    rw [show (queryMsg toA method params f1).To = toA from rfl]
    rw [show (queryMsg toA method params f2).To = toA from rfl]
    cases hres : ResolveAddress env toA (newCachedTree st) queryGasTracker with
    | error e => rfl
    | ok r =>
      obtain ⟨ta, found⟩ := r
      cases found
      · rfl
      · cases hget : st.getActor ta with
        | error e => simp [hget]
        | ok a =>
          simp only [hget]
          rfl

/-- A base tree holding only the init actor, which knows no address
mappings under `trivEnv`. -/
def stInitOnly : StateTree := [(initAddress, ⟨1, 0, 0, 0⟩)]

/-- Claim C6 witness: a concrete unresolvable (public-key) target address
yields the permanent-class rejection. -/
theorem callQueryMethod_contract_witness :
    (CallQueryMethod trivEnv stInitOnly ⟨Protocol.SECP256K1, 5⟩ 0 [] addrID1
        none).1 =
      ([], 1, some (.permanentWrap "failed to resolve To actor")) ∧
    isApplyErrorPermanent (.permanentWrap "failed to resolve To actor") = true := by
  have h := callQueryMethod_contract trivEnv stInitOnly ⟨Protocol.SECP256K1, 5⟩
    0 [] addrID1 none
  have h1 := h.1 undefAddress rfl
  exact ⟨h1.1, h1.2.1⟩
